import Mathlib

/-!
Shallow embedding of the Xous socket transport shim
(src/library/std/src/sys/xous/net/mod.rs and tcplistener.rs).

Request/response buffers are 4096-byte pages, modelled as functions
from byte index to byte value; caller buffers are lists of bytes.
Machine integers are modelled as Nat with explicit reductions where the
source casts or wraps.
-/

namespace XousNet

/-- Local error taxonomy, from crate::io::ErrorKind as used in this module. -/
inductive ErrorKind where
  | unsupported
  | invalidInput
  | resourceBusy
  | timedOut
  | wouldBlock
  | other
deriving DecidableEq, Repr

/-- Target of a message send: the network service connection obtained from
services::network(), or a raw connection id (the source passes self.fd as
the connection argument for the per-stream scalar calls). -/
inductive MsgTarget where
  | network
  | connection (cid : Nat)
deriving DecidableEq, Repr

/-- Kind of xous message constructed by this module. -/
inductive MessageKind where
  | blockingScalar
  | lendMut
deriving DecidableEq, Repr

/-- One message handed to xous::send_message: target connection, message
kind, opcode word, scalar arguments, and for memory messages the optional
offset (MemoryAddress) and valid-size (MemorySize) fields. -/
structure Message where
  target : MsgTarget
  kind : MessageKind
  opcode : Nat
  args : List Nat := []
  offset : Option Nat := none
  validSize : Option Nat := none
deriving DecidableEq, Repr

/-- xous::MemorySize::new — MemorySize is a non-zero usize, so new of 0 is
none. -/
def memorySizeNew (n : Nat) : Option Nat :=
  if n = 0 then none else some n

/-- xous::MemoryAddress::new — likewise a non-zero usize. -/
def memoryAddressNew (n : Nat) : Option Nat :=
  if n = 0 then none else some n

/-- Result of one xous::send_message round trip, as this module matches
on it: Ok(MemoryReturned(offset, valid)) carrying the mutated page,
Ok(Scalar1(v)), some other Ok variant, or Err from the send itself. -/
inductive IpcReply where
  | memoryReturned (valid : Option Nat) (buf : Nat → Nat)
  | scalar1 (v : Nat)
  | otherResult
  | sendFailed

/-- An IP address as this module consumes it: a version tag (4 or 6)
with its octets. -/
inductive IpAddress where
  | v4 (octets : List Nat)
  | v6 (octets : List Nat)
deriving DecidableEq, Repr

def IpAddress.tag : IpAddress → Nat
  | .v4 _ => 4
  | .v6 _ => 6

def IpAddress.octets : IpAddress → List Nat
  | .v4 o => o
  | .v6 o => o

/-- A socket address as decoded/stored by this module. -/
inductive SocketAddress where
  | v4 (a b c d : Nat) (port : Nat)
  | v6 (g0 g1 g2 g3 g4 g5 g6 g7 : Nat) (port : Nat)
deriving DecidableEq, Repr

def SocketAddress.port : SocketAddress → Nat
  | .v4 _ _ _ _ p => p
  | .v6 _ _ _ _ _ _ _ _ p => p

/-! ## Wire buffer writes

The source zero-initializes a 4096-byte page and fills regions with
iterator-zip loops (which stop at the shorter of the slice and the data).
writeList buf start data models one such loop over buf[start..]. -/

/-- Write data into the 4096-byte page starting at start, as the zip
loops in the source do: indices outside [start, start+data.length) and
indices at or beyond 4096 keep their previous value. -/
def writeList (buf : Nat → Nat) (start : Nat) (data : List Nat) : Nat → Nat :=
  fun i =>
    if start ≤ i ∧ i < 4096 ∧ i - start < data.length then data.getD (i - start) 0
    else buf i

/-- u16::to_le_bytes. -/
def u16leBytes (v : Nat) : List Nat :=
  [v % 256, v / 256 % 256]

/-- u64::to_le_bytes. -/
def u64leBytes (v : Nat) : List Nat :=
  [v % 256,
   v / 256 % 256,
   v / 256 ^ 2 % 256,
   v / 256 ^ 3 % 256,
   v / 256 ^ 4 % 256,
   v / 256 ^ 5 % 256,
   v / 256 ^ 6 % 256,
   v / 256 ^ 7 % 256]

/-- The ConnectRequest page built by TcpStream::connect_timeout:
raw[0..2) = port.to_le_bytes(); raw[2..10) = (duration.as_millis() as
u64).to_le_bytes() (the cast from u128 truncates mod 2^64); raw[10] = 4
or 6; raw[11..] = the address octets; all other bytes stay zero. -/
def connectRequestBuf (port millis : Nat) (ip : IpAddress) : Nat → Nat :=
  writeList
    (writeList
      (writeList
        (writeList (fun _ => 0) 0 (u16leBytes port))
        2 (u64leBytes (millis % 2 ^ 64)))
      10 [ip.tag])
    11 ip.octets

/-- TcpStream::connect delegates to connect_timeout with Duration::ZERO,
whose whole-millisecond count is 0. -/
def connectBuf (port : Nat) (ip : IpAddress) : Nat → Nat :=
  connectRequestBuf port 0 ip

/-! ## Stream sockets -/

/-- The TcpStream state: remote connection handle fd, local and remote
ports, the cached peer address, and the two Cell-held timeout values in
milliseconds (u32, 0 meaning unset). -/
structure TcpStream where
  fd : Nat
  local_port : Nat
  remote_port : Nat
  peer_addr : SocketAddress
  read_timeout : Nat
  write_timeout : Nat
deriving DecidableEq, Repr

/-- Modelled from the spec: TcpStream::from_listener is called by
TcpListener::accept but its definition is not among the provided sources.
Per the spec (section 4.3) accept constructs a new Stream Socket bound to
the accepted handle, the listener local port, and the decoded remote
port/address; per section 3 the timeouts default to no-timeout (0). -/
def TcpStream.from_listener (fd localPort remotePort : Nat)
    (peer : SocketAddress) : TcpStream :=
  ⟨fd, localPort, remotePort, peer, 0, 0⟩

/-- TcpStream::set_read_timeout: stores
timeout.map(as_millis().min(u32::MAX) as u32).unwrap_or_default().
The argument is the whole-millisecond count of the duration. -/
def TcpStream.set_read_timeout (s : TcpStream) (t : Option Nat) : TcpStream :=
  { s with read_timeout := match t with
      | some m => min m 4294967295
      | none => 0 }

/-- TcpStream::set_write_timeout, same shape as set_read_timeout. -/
def TcpStream.set_write_timeout (s : TcpStream) (t : Option Nat) : TcpStream :=
  { s with write_timeout := match t with
      | some m => min m 4294967295
      | none => 0 }

/-- TcpStream::read_timeout: 0 decodes to None, anything else to
Some(Duration::from_millis(t)), represented by its millisecond count. -/
def TcpStream.readTimeoutGet (s : TcpStream) : Except ErrorKind (Option Nat) :=
  match s.read_timeout with
  | 0 => .ok none
  | t => .ok (some t)

/-- TcpStream::write_timeout, same shape as read_timeout. -/
def TcpStream.writeTimeoutGet (s : TcpStream) : Except ErrorKind (Option Nat) :=
  match s.write_timeout with
  | 0 => .ok none
  | t => .ok (some t)

/-- TcpStream::peer_addr returns the cached address, Ok always. -/
def TcpStream.peerAddr (s : TcpStream) : Except ErrorKind SocketAddress :=
  .ok s.peer_addr

/-- Messages sent by TcpStream::peer_addr: the body is Ok(self.peer_addr)
with no call to xous::send_message. -/
def TcpStream.peerAddrMessages (_ : TcpStream) : List Message :=
  []

/-- The message built by TcpStream::read: lend_mut to the network service
with opcode 33 | (fd << 16), the read timeout reused as the offset field
(MemoryAddress::new, so 0 becomes none), and valid size
MemorySize::new(buf.len().min(4096)). bufLen is the caller buffer length. -/
def TcpStream.readMsg (s : TcpStream) (bufLen : Nat) : Message :=
  { target := .network
    kind := .lendMut
    opcode := 33 ||| (s.fd <<< 16)
    offset := memoryAddressNew s.read_timeout
    validSize := memorySizeNew (min bufLen 4096) }

/-- The message built by TcpStream::peek: same as read but with no
timeout in the offset field. -/
def TcpStream.peekMsg (s : TcpStream) (bufLen : Nat) : Message :=
  { target := .network
    kind := .lendMut
    opcode := 33 ||| (s.fd <<< 16)
    offset := none
    validSize := memorySizeNew (min bufLen 4096) }

/-- The message built by TcpStream::write: lend_mut with opcode
31 | (fd << 16), the write timeout as the offset field, and valid size
MemorySize::new(buf.len().min(4096)). -/
def TcpStream.writeMsg (s : TcpStream) (buf : List Nat) : Message :=
  { target := .network
    kind := .lendMut
    opcode := 31 ||| (s.fd <<< 16)
    offset := memoryAddressNew s.write_timeout
    validSize := memorySizeNew (min buf.length 4096) }

/-- The zip copy loop for (dest, src) in dst.iter_mut().zip(src):
overwrites the common prefix of dst with src, leaves the rest of dst. -/
def copyInto : List Nat → List Nat → List Nat
  | [], _ => []
  | dst, [] => dst
  | _ :: ds, s :: ss => s :: copyInto ds ss

/-- receive_request.raw[..length]: the reply page sliced to the valid
length. The slice traps when length exceeds the 4096-byte page, which the
embedding reports as none. -/
def sliceTake (raw : Nat → Nat) (len : Nat) : Option (List Nat) :=
  if len ≤ 4096 then some ((List.range len).map raw) else none

/-- The result path of TcpStream::read, as a function of the reply:
MemoryReturned with Some(length) copies raw[..length] into the caller
buffer and returns Ok(length); MemoryReturned with no valid length
returns Ok(0); any other reply is the InvalidInput error. The outer
Option is none only on the out-of-bounds slice trap. -/
def TcpStream.readResult (_ : TcpStream) (buf : List Nat) (reply : IpcReply) :
    Option (Except ErrorKind (Nat × List Nat)) :=
  match reply with
  | .memoryReturned valid raw =>
    match valid with
    | some length =>
      match sliceTake raw length with
      | some src => some (.ok (length, copyInto buf src))
      | none => none
    | none => some (.ok (0, buf))
  | _ => some (.error .invalidInput)

/-- The result path of TcpStream::peek, identical decode to read. -/
def TcpStream.peekResult (_ : TcpStream) (buf : List Nat) (reply : IpcReply) :
    Option (Except ErrorKind (Nat × List Nat)) :=
  match reply with
  | .memoryReturned valid raw =>
    match valid with
    | some length =>
      match sliceTake raw length with
      | some src => some (.ok (length, copyInto buf src))
      | none => none
    | none => some (.ok (0, buf))
  | _ => some (.error .invalidInput)

/-- The per-stream blocking scalar sent by TcpStream::ttl: opcode
38 | (fd << 16), which the source itself annotates as StdGetNodelay = 38,
sent to connection self.fd. -/
def TcpStream.ttlMsg (s : TcpStream) : Message :=
  { target := .connection s.fd
    kind := .blockingScalar
    opcode := 38 ||| (s.fd <<< 16)
    args := [0, 0, 0, 0] }

/-- The per-stream blocking scalar sent by TcpStream::set_ttl: opcode
37 | (fd << 16) (StdSetTtl = 37) carrying the ttl value. -/
def TcpStream.setTtlMsg (s : TcpStream) (ttl : Nat) : Message :=
  { target := .connection s.fd
    kind := .blockingScalar
    opcode := 37 ||| (s.fd <<< 16)
    args := [ttl, 0, 0, 0] }

/-! ## Listener sockets -/

/-- Modelled from the spec: the NetError enum compared against by bind
and accept error decoding is used but not defined in the provided
sources. The spec (section 6) lists the remote error codes socket-in-use,
invalid-input, library-error, timed-out, would-block; their numeric
values are modelled here as distinct constants, which is all the decoding
logic depends on. -/
inductive NetError where
  | socketInUse
  | invalid
  | libraryError
  | timedOut
  | wouldBlock
deriving DecidableEq, Repr

/-- Modelled from the spec: the numeric value of each remote error code
(as u8), chosen distinct. -/
def NetError.code : NetError → Nat
  | .socketInUse => 2
  | .invalid => 4
  | .libraryError => 6
  | .timedOut => 8
  | .wouldBlock => 9

/-- The error-code mapping in TcpListener::bind (tcplistener.rs lines
76-92): SocketInUse, Invalid and LibraryError are recognized, everything
else falls to the catch-all Other arm. -/
def bindErrorKind (errcode : Nat) : ErrorKind :=
  if errcode = NetError.code .socketInUse then .resourceBusy
  else if errcode = NetError.code .invalid then .invalidInput
  else if errcode = NetError.code .libraryError then .other
  else .other

/-- The error-code mapping in TcpListener::accept (tcplistener.rs lines
133-146): TimedOut, WouldBlock and LibraryError are recognized,
everything else falls to the catch-all Other arm. -/
def acceptErrorKind (errcode : Nat) : ErrorKind :=
  if errcode = NetError.code .timedOut then .timedOut
  else if errcode = NetError.code .wouldBlock then .wouldBlock
  else if errcode = NetError.code .libraryError then .other
  else .other

/-- The TcpListener state: remote listening handle fd, the local address
fixed at bind, the shared Arc<AtomicUsize> handle count (modelled by its
value), and the nonblocking Cell flag. -/
structure TcpListener where
  fd : Nat
  localAddr : SocketAddress
  handle_count : Nat
  nonblocking : Bool
deriving DecidableEq, Repr

/-- handle_count: Arc::new(AtomicUsize::new(1)) at bind. -/
def bindInitialCount : Nat := 1

/-- The decode path of TcpListener::bind as a function of the reply: on
MemoryReturned, a nonzero status byte raw[0] or an absent valid length
maps raw[1] through the bind error table; otherwise raw[1] is the new
handle and the listener starts with count 1 and blocking accepts. Any
other reply is the InvalidInput error. -/
def TcpListener.bindDecode (addr : SocketAddress) (reply : IpcReply) :
    Except ErrorKind TcpListener :=
  match reply with
  | .memoryReturned valid raw =>
    if raw 0 ≠ 0 ∨ valid = none then .error (bindErrorKind (raw 1))
    else .ok ⟨raw 1, addr, bindInitialCount, false⟩
  | _ => .error .invalidInput

/-- The request flag byte written by TcpListener::accept at raw[0]:
0 when the listener is nonblocking, 1 when blocking. -/
def TcpListener.acceptRequestFlag (l : TcpListener) : Nat :=
  if l.nonblocking then 0 else 1

/-- The decode path of TcpListener::accept as a function of the reply
page: nonzero status raw[0] maps raw[1] through the accept error table;
on success the new handle is the u16 at raw[1..3), the peer port the u16
at raw[20..22), and raw[3] selects IPv4 octets raw[4..8) or IPv6
big-endian groups raw[4..20); the accepted stream is built by
TcpStream::from_listener. A non-memory reply is the InvalidInput error. -/
def TcpListener.accept (l : TcpListener) (reply : IpcReply) :
    Except ErrorKind (TcpStream × SocketAddress) :=
  match reply with
  | .memoryReturned _ rr =>
    if rr 0 ≠ 0 then .error (acceptErrorKind (rr 1))
    else
      let fd := rr 1 + 256 * rr 2
      let port := rr 20 + 256 * rr 21
      if rr 3 = 4 then
        let addr : SocketAddress := .v4 (rr 4) (rr 5) (rr 6) (rr 7) port
        .ok (TcpStream.from_listener fd l.localAddr.port port addr, addr)
      else if rr 3 = 6 then
        let addr : SocketAddress := .v6
          (256 * rr 4 + rr 5) (256 * rr 6 + rr 7)
          (256 * rr 8 + rr 9) (256 * rr 10 + rr 11)
          (256 * rr 12 + rr 13) (256 * rr 14 + rr 15)
          (256 * rr 16 + rr 17) (256 * rr 18 + rr 19) port
        .ok (TcpStream.from_listener fd l.localAddr.port port addr, addr)
      else .error .other
  | _ => .error .invalidInput

/-- TcpListener::duplicate: fetch_add(1) on the shared count and a clone
of the same fields — no message is sent. -/
def TcpListener.duplicateOp (l : TcpListener) : TcpListener × List Message :=
  ({ l with handle_count := l.handle_count + 1 }, [])

/-- The teardown message sent by the Drop impl when the last alias goes
away: blocking scalar opcode 46 | (fd << 16) to the network service. -/
def teardownMsg (fd : Nat) : Message :=
  { target := .network
    kind := .blockingScalar
    opcode := 46 ||| (fd <<< 16)
    args := [0, 0, 0, 0] }

/-- The diagnostic lines printed by the Drop impl for the teardown reply:
Ok(Scalar1(0)) prints nothing, Ok(Scalar1(nonzero)) prints the err-code
line, and every other outcome prints the internal-error line. The reply
is none when send_message itself failed. -/
def teardownLog (reply : Option IpcReply) : List String :=
  match reply with
  | some (.scalar1 result) =>
    if result ≠ 0 then ["TcpListener drop failure err code"] else []
  | _ => ["TcpListener drop failure - internal error"]

/-- One execution of the Drop impl: fetch_sub(1) returns the previous
count; only when it was 1 is the teardown message sent and its reply
matched for logging. The caller-visible outcome is the new count and the
messages; the log depends on the reply but nothing else does, and no
error value exists to propagate. -/
def TcpListener.dropOp (l : TcpListener) (reply : Option IpcReply) :
    (Nat × List Message) × List String :=
  ((l.handle_count - 1,
    if l.handle_count = 1 then [teardownMsg l.fd] else []),
   if l.handle_count = 1 then teardownLog reply else [])

/-- Duplicate applied to the shared count alone. -/
def dupCount (c : Nat) : Nat × List Message :=
  (c + 1, [])

/-- Drop applied to the shared count alone: decrement, teardown message
exactly when the previous value was 1. -/
def dropCount (fd c : Nat) : Nat × List Message :=
  (c - 1, if c = 1 then [teardownMsg fd] else [])

/-- k successive duplicates starting from shared count c. -/
def dupN : Nat → Nat → Nat × List Message
  | c, 0 => (c, [])
  | c, k + 1 =>
    let r1 := dupCount c
    let r2 := dupN r1.1 k
    (r2.1, r1.2 ++ r2.2)

/-- k successive drops starting from shared count c. -/
def dropN (fd : Nat) : Nat → Nat → Nat × List Message
  | c, 0 => (c, [])
  | c, k + 1 =>
    let r1 := dropCount fd c
    let r2 := dropN fd r1.1 k
    (r2.1, r1.2 ++ r2.2)

/-- The blocking scalar sent by TcpListener::ttl: opcode 36 | (fd << 16)
(StdGetTtl = 36) to the network service. -/
def TcpListener.ttlMsg (l : TcpListener) : Message :=
  { target := .network
    kind := .blockingScalar
    opcode := 36 ||| (l.fd <<< 16)
    args := [0, 0, 0, 0] }

/-- The blocking scalar sent by TcpListener::set_ttl: opcode
37 | (fd << 16) (StdSetTtl = 37) carrying the ttl value. -/
def TcpListener.setTtlMsg (l : TcpListener) (ttl : Nat) : Message :=
  { target := .network
    kind := .blockingScalar
    opcode := 37 ||| (l.fd <<< 16)
    args := [ttl, 0, 0, 0] }

/-! writeList evaluation lemmas. -/

theorem writeList_hit (buf : Nat → Nat) (start : Nat) (data : List Nat) (i : Nat)
    (h1 : start ≤ i) (h2 : i < 4096) (h3 : i - start < data.length) :
    writeList buf start data i = data.getD (i - start) 0 := by
  simp only [writeList]
  rw [if_pos ⟨h1, h2, h3⟩]

theorem writeList_miss (buf : Nat → Nat) (start : Nat) (data : List Nat) (i : Nat)
    (h : i < start ∨ start + data.length ≤ i ∨ 4096 ≤ i) :
    writeList buf start data i = buf i := by
  simp only [writeList]
  rw [if_neg]
  omega

/-! ## Concrete fixtures used by witnesses and counterexamples -/

/-- A concrete connected stream, used to instantiate theorems. -/
def stream0 : TcpStream :=
  ⟨1, 80, 443, .v4 127 0 0 1 443, 0, 0⟩

/-- A concrete stream with handle 5. -/
def stream5 : TcpStream :=
  ⟨5, 80, 443, .v4 127 0 0 1 443, 0, 0⟩

/-- A concrete listener bound to 0.0.0.0:8080 with handle 7. -/
def listener7 : TcpListener :=
  ⟨7, .v4 0 0 0 0 8080, 1, false⟩

/-- A concrete accept reply page: status 0, handle 12 LE at [1:3),
version 4 at [3], octets 10.0.0.5 at [4:8), port 54321 LE at [20:22). -/
def acceptReplyPage : Nat → Nat := fun i =>
  if i = 1 then 12
  else if i = 3 then 4
  else if i = 4 then 10
  else if i = 7 then 5
  else if i = 20 then 49
  else if i = 21 then 212
  else 0

/-- A concrete failing reply page: status 1 at [0], error code 2
(the socket-in-use code) at [1]. -/
def inUseReplyPage : Nat → Nat := fun i =>
  if i = 0 then 1
  else if i = 1 then 2
  else 0

/-! ## Byte-level facts about the connect request encoding -/

theorem u64leBytes_getD (m i : Nat) (h : i < 8) :
    (u64leBytes m).getD i 0 = m / 256 ^ i % 256 := by
  interval_cases i <;> simp [u64leBytes]

theorem connectRequestBuf_port0 (port millis : Nat) (ip : IpAddress) :
    connectRequestBuf port millis ip 0 = port % 256 := by
  simp only [connectRequestBuf]
  rw [writeList_miss _ _ _ _ (by omega), writeList_miss _ _ _ _ (by omega),
    writeList_miss _ _ _ _ (by omega),
    writeList_hit _ _ _ _ (by omega) (by omega) (by simp [u16leBytes])]
  simp [u16leBytes]

theorem connectRequestBuf_port1 (port millis : Nat) (ip : IpAddress) :
    connectRequestBuf port millis ip 1 = port / 256 % 256 := by
  simp only [connectRequestBuf]
  rw [writeList_miss _ _ _ _ (by omega), writeList_miss _ _ _ _ (by omega),
    writeList_miss _ _ _ _ (by omega),
    writeList_hit _ _ _ _ (by omega) (by omega) (by simp [u16leBytes])]
  simp [u16leBytes]

theorem connectRequestBuf_timeout (port millis : Nat) (ip : IpAddress) (i : Nat)
    (hi : i < 8) :
    connectRequestBuf port millis ip (2 + i) = millis % 2 ^ 64 / 256 ^ i % 256 := by
  simp only [connectRequestBuf]
  rw [writeList_miss _ _ _ _ (by omega),
    writeList_miss _ _ _ _ (by simp only [List.length_singleton]; omega),
    writeList_hit _ _ _ _ (by omega) (by omega) (by simp [u64leBytes]; omega)]
  rw [Nat.add_sub_cancel_left, u64leBytes_getD _ _ hi]

theorem connectRequestBuf_tag (port millis : Nat) (ip : IpAddress) :
    connectRequestBuf port millis ip 10 = ip.tag := by
  simp only [connectRequestBuf]
  rw [writeList_miss _ _ _ _ (by omega),
    writeList_hit _ _ _ _ (by omega) (by omega) (by simp)]
  simp

theorem connectRequestBuf_octet (port millis : Nat) (ip : IpAddress) (j : Nat)
    (hj : j < ip.octets.length) (hj2 : 11 + j < 4096) :
    connectRequestBuf port millis ip (11 + j) = ip.octets.getD j 0 := by
  simp only [connectRequestBuf]
  rw [writeList_hit _ _ _ _ (by omega) (by omega) (by omega)]
  rw [Nat.add_sub_cancel_left]

/-- C2: connect_timeout encodes port LE at [0:2), timeout milliseconds as
a little-endian 64-bit value at [2:10), the IP version tag at [10] and the
address octets from [11:); the no-timeout entry point connect encodes
millisecond value 0. -/
theorem connect_request_encoding (port millis : Nat) (ip : IpAddress) (i j : Nat)
    (hi : i < 8) (hj : j < ip.octets.length) (hj2 : 11 + j < 4096) :
    connectRequestBuf port millis ip 0 = port % 256 ∧
    connectRequestBuf port millis ip 1 = port / 256 % 256 ∧
    connectRequestBuf port millis ip (2 + i) = millis % 2 ^ 64 / 256 ^ i % 256 ∧
    connectRequestBuf port millis ip 10 = ip.tag ∧
    connectRequestBuf port millis ip (11 + j) = ip.octets.getD j 0 ∧
    connectBuf port ip = connectRequestBuf port 0 ip ∧
    connectBuf port ip (2 + i) = 0 := by
  refine ⟨connectRequestBuf_port0 port millis ip, connectRequestBuf_port1 port millis ip,
    connectRequestBuf_timeout port millis ip i hi, connectRequestBuf_tag port millis ip,
    connectRequestBuf_octet port millis ip j hj hj2, rfl, ?_⟩
  rw [connectBuf, connectRequestBuf_timeout port 0 ip i hi]
  simp

/-- Witness for C2 at port 4660, timeout 300 ms, address 192.168.1.2. -/
theorem connect_request_encoding_w :
    connectRequestBuf 4660 300 (IpAddress.v4 [192, 168, 1, 2]) (2 + 1) =
      300 % 2 ^ 64 / 256 ^ 1 % 256 ∧
    connectRequestBuf 4660 300 (IpAddress.v4 [192, 168, 1, 2]) (11 + 0) =
      (IpAddress.v4 [192, 168, 1, 2]).octets.getD 0 0 ∧
    connectBuf 4660 (IpAddress.v4 [192, 168, 1, 2]) (2 + 1) = 0 :=
  ⟨(connect_request_encoding 4660 300 (IpAddress.v4 [192, 168, 1, 2]) 1 0
      (by norm_num) (by simp [IpAddress.octets]) (by norm_num)).2.2.1,
   (connect_request_encoding 4660 300 (IpAddress.v4 [192, 168, 1, 2]) 1 0
      (by norm_num) (by simp [IpAddress.octets]) (by norm_num)).2.2.2.2.1,
   (connect_request_encoding 4660 300 (IpAddress.v4 [192, 168, 1, 2]) 1 0
      (by norm_num) (by simp [IpAddress.octets]) (by norm_num)).2.2.2.2.2.2⟩

/-! ## Listener reference counting -/

theorem dupN_eq (k c : Nat) : dupN c k = (c + k, []) := by
  induction k generalizing c with
  | zero => simp [dupN]
  | succ n ih =>
    simp only [dupN, dupCount, ih]
    simp only [Prod.mk.injEq, List.append_nil, List.nil_append, and_true]
    omega

theorem dropN_partial_eq (fd : Nat) (k c : Nat) (h : k < c) :
    dropN fd c k = (c - k, []) := by
  induction k generalizing c with
  | zero => simp [dropN]
  | succ n ih =>
    simp only [dropN, dropCount]
    rw [if_neg (by omega), ih (c - 1) (by omega)]
    simp only [Prod.mk.injEq, List.append_nil, List.nil_append, and_true]
    omega

theorem dropN_all_eq (fd : Nat) (c : Nat) :
    dropN fd (c + 1) (c + 1) = (0, [teardownMsg fd]) := by
  induction c with
  | zero => simp [dropN, dropCount]
  | succ n ih =>
    conv_lhs => rw [dropN]
    simp only [dropCount]
    rw [if_neg (by omega)]
    simp only [Nat.add_sub_cancel]
    rw [ih]
    rfl

/-- C1: after a bind (shared count 1) and N duplicates (no IPC each), the
count is N + 1; dropping any proper subset of the N + 1 aliases emits no
teardown message, while dropping all N + 1 emits exactly one — a blocking
scalar with opcode 46 | (handle << 16) to the network service; the
caller-visible outcome of a drop does not depend on the teardown reply,
whose nonzero or malformed results are only logged. -/
theorem listener_refcount_teardown_once (fd N k : Nat) (l : TcpListener)
    (rep1 rep2 : Option IpcReply) (r : Nat) (hk : k ≤ N) (hr : r ≠ 0) :
    dupN bindInitialCount N = (N + 1, []) ∧
    l.duplicateOp.2 = [] ∧
    l.duplicateOp.1.handle_count = l.handle_count + 1 ∧
    l.duplicateOp.1.fd = l.fd ∧
    (dropN fd (N + 1) k).2 = [] ∧
    dropN fd (N + 1) (N + 1) = (0, [teardownMsg fd]) ∧
    teardownMsg fd =
      { target := .network, kind := .blockingScalar,
        opcode := 46 ||| (fd <<< 16), args := [0, 0, 0, 0] } ∧
    (l.dropOp rep1).1 = (l.dropOp rep2).1 ∧
    teardownLog (some (.scalar1 r)) = ["TcpListener drop failure err code"] ∧
    teardownLog (some (.scalar1 0)) = [] ∧
    teardownLog none = ["TcpListener drop failure - internal error"] := by
  refine ⟨?_, rfl, rfl, rfl, ?_, dropN_all_eq fd N, rfl, rfl, ?_, rfl, rfl⟩
  · rw [dupN_eq]
    simp [bindInitialCount, Nat.add_comm]
  · rw [dropN_partial_eq fd k (N + 1) (by omega)]
  · simp [teardownLog, hr]

/-- Witness for C1: one bind, two duplicates, one drop keeps the handle;
dropping all three aliases sends the single teardown message. -/
theorem listener_refcount_teardown_once_w :
    (1 : Nat) ≤ 2 ∧ (5 : Nat) ≠ 0 ∧
    (dropN 3 (2 + 1) 1).2 = [] ∧
    dropN 3 (2 + 1) (2 + 1) = (0, [teardownMsg 3]) :=
  ⟨by norm_num, by norm_num,
   (listener_refcount_teardown_once 3 2 1 listener7 none none 5
      (by norm_num) (by norm_num)).2.2.2.2.1,
   (listener_refcount_teardown_once 3 2 1 listener7 none none 5
      (by norm_num) (by norm_num)).2.2.2.2.2.1⟩

/-- C7: evaluated at a concrete stream with handle 5, the code's stream
ttl getter sends the blocking scalar opcode 38 | (handle << 16) — the
get-nodelay opcode, as its own source comment says — and not the
get-ttl opcode 36 | (handle << 16) that the spec table assigns; the
setter does send 37 | (handle << 16), and the listener getter sends
36 | (handle << 16). -/
theorem stream_ttl_opcode_mismatch :
    stream5.ttlMsg.kind = .blockingScalar ∧
    stream5.ttlMsg.opcode = 38 ||| (5 <<< 16) ∧
    stream5.ttlMsg.opcode ≠ 36 ||| (5 <<< 16) ∧
    stream5.setTtlMsg 64 =
      { target := .connection 5, kind := .blockingScalar,
        opcode := 37 ||| (5 <<< 16), args := [64, 0, 0, 0] } ∧
    listener7.ttlMsg.opcode = 36 ||| (7 <<< 16) := by
  refine ⟨rfl, rfl, ?_, rfl, rfl⟩
  decide

/-! ## Timeout storage -/

theorem readTimeoutGet_eq (s : TcpStream) :
    s.readTimeoutGet =
      .ok (if s.read_timeout = 0 then none else some s.read_timeout) := by
  cases h : s.read_timeout with
  | zero => simp [TcpStream.readTimeoutGet, h]
  | succ n => simp [TcpStream.readTimeoutGet, h]

theorem writeTimeoutGet_eq (s : TcpStream) :
    s.writeTimeoutGet =
      .ok (if s.write_timeout = 0 then none else some s.write_timeout) := by
  cases h : s.write_timeout with
  | zero => simp [TcpStream.writeTimeoutGet, h]
  | succ n => simp [TcpStream.writeTimeoutGet, h]

/-- C8 counterexample: setting a read timeout whose whole-millisecond
count is 0 (for example Duration::ZERO) stores the reserved value 0, so
the getter reads back None — not Some of the duration that was set. -/
theorem set_zero_timeout_reads_back_none :
    (stream0.set_read_timeout (some 0)).readTimeoutGet = .ok none ∧
    (stream0.set_read_timeout (some 0)).readTimeoutGet ≠ .ok (some 0) := by
  have h : (stream0.set_read_timeout (some 0)).readTimeoutGet = .ok none := rfl
  refine ⟨h, ?_⟩
  rw [h]
  simp

/-- C8 (amended): for a set duration of m whole milliseconds with
1 ≤ m ≤ u32::MAX, the getter reads back exactly Some m; setting None (or
a duration under one millisecond) reads back None; the two timeouts are
independent, and a stream starts with both unset. -/
theorem timeout_set_get_roundtrip (s : TcpStream) (m : Nat) (t : Option Nat)
    (fd lp rp : Nat) (a : SocketAddress) (h1 : 1 ≤ m) (h2 : m ≤ 4294967295) :
    (s.set_read_timeout (some m)).readTimeoutGet = .ok (some m) ∧
    (s.set_write_timeout (some m)).writeTimeoutGet = .ok (some m) ∧
    (s.set_read_timeout none).readTimeoutGet = .ok none ∧
    (s.set_write_timeout none).writeTimeoutGet = .ok none ∧
    (s.set_read_timeout t).write_timeout = s.write_timeout ∧
    (s.set_write_timeout t).read_timeout = s.read_timeout ∧
    (TcpStream.from_listener fd lp rp a).readTimeoutGet = .ok none ∧
    (TcpStream.from_listener fd lp rp a).writeTimeoutGet = .ok none := by
  refine ⟨?_, ?_, rfl, rfl, rfl, rfl, rfl, rfl⟩
  · rw [readTimeoutGet_eq]
    simp only [TcpStream.set_read_timeout]
    rw [if_neg (by omega)]
    congr 2
    omega
  · rw [writeTimeoutGet_eq]
    simp only [TcpStream.set_write_timeout]
    rw [if_neg (by omega)]
    congr 2
    omega

/-- Witness for the amended C8 at 5 milliseconds. -/
theorem timeout_set_get_roundtrip_w :
    (1 : Nat) ≤ 5 ∧ (5 : Nat) ≤ 4294967295 ∧
    (stream0.set_read_timeout (some 5)).readTimeoutGet = .ok (some 5) ∧
    (stream0.set_write_timeout (some 5)).writeTimeoutGet = .ok (some 5) :=
  ⟨by norm_num, by norm_num,
   (timeout_set_get_roundtrip stream0 5 none 1 80 443 (.v4 127 0 0 1 443)
      (by norm_num) (by norm_num)).1,
   (timeout_set_get_roundtrip stream0 5 none 1 80 443 (.v4 127 0 0 1 443)
      (by norm_num) (by norm_num)).2.1⟩

/-- C10: a duration of more than u32::MAX whole milliseconds is clamped
to u32::MAX on both setters, and the getters read Some(u32::MAX) back. -/
theorem timeout_saturates (s : TcpStream) (m : Nat) (h : 4294967295 < m) :
    (s.set_read_timeout (some m)).read_timeout = 4294967295 ∧
    (s.set_write_timeout (some m)).write_timeout = 4294967295 ∧
    (s.set_read_timeout (some m)).readTimeoutGet = .ok (some 4294967295) ∧
    (s.set_write_timeout (some m)).writeTimeoutGet = .ok (some 4294967295) := by
  have hr : (s.set_read_timeout (some m)).read_timeout = 4294967295 := by
    simp only [TcpStream.set_read_timeout]
    omega
  have hw : (s.set_write_timeout (some m)).write_timeout = 4294967295 := by
    simp only [TcpStream.set_write_timeout]
    omega
  refine ⟨hr, hw, ?_, ?_⟩
  · rw [readTimeoutGet_eq, hr]
    simp
  · rw [writeTimeoutGet_eq, hw]
    simp

/-- Witness for C10 at m = 2^32. -/
theorem timeout_saturates_w :
    (4294967295 : Nat) < 4294967296 ∧
    (stream0.set_read_timeout (some 4294967296)).readTimeoutGet =
      .ok (some 4294967295) :=
  ⟨by norm_num,
   (timeout_saturates stream0 4294967296 (by norm_num)).2.2.1⟩

/-! ## Read/write marshaling -/

/-- C4: read, peek and write declare at most 4096 bytes to the IPC send:
the valid-size field is MemorySize::new of min(caller length, 4096), so
any declared length is at most 4096, and a 5000-byte write declares
exactly 4096 — for every stream state, hence whatever the timeouts are. -/
theorem rw_length_capped (s : TcpStream) (buf : List Nat) (n v : Nat) :
    (s.writeMsg buf).validSize = memorySizeNew (min buf.length 4096) ∧
    (s.readMsg n).validSize = memorySizeNew (min n 4096) ∧
    (s.peekMsg n).validSize = memorySizeNew (min n 4096) ∧
    ((s.writeMsg buf).validSize = some v → v ≤ 4096) ∧
    (buf.length = 5000 → (s.writeMsg buf).validSize = some 4096) ∧
    (s.writeMsg buf).opcode = 31 ||| (s.fd <<< 16) ∧
    (s.readMsg n).opcode = 33 ||| (s.fd <<< 16) := by
  refine ⟨rfl, rfl, rfl, ?_, ?_, rfl, rfl⟩
  · intro h
    simp only [TcpStream.writeMsg, memorySizeNew] at h
    split at h
    · exact absurd h (by simp)
    · have : min buf.length 4096 = v := by
        exact Option.some.inj h
      omega
  · intro h
    simp [TcpStream.writeMsg, memorySizeNew, h]

/-- Witness for C4: a 5000-byte buffer declares exactly 4096 bytes. -/
theorem rw_length_capped_w :
    (List.replicate 5000 7).length = 5000 ∧
    (stream0.writeMsg (List.replicate 5000 7)).validSize = some 4096 :=
  ⟨by rw [List.length_replicate],
   (rw_length_capped stream0 (List.replicate 5000 7) 1 1).2.2.2.2.1
     (by rw [List.length_replicate])⟩

/-- C5: a memory-returned reply with no valid length decodes to Ok(0) on
both read and peek; a memory-returned reply with a valid length decodes
to Ok (never an io error — the only non-Ok outcome is the slice trap past
4096); every other reply shape decodes to the InvalidInput error. -/
theorem read_peek_reply_decode (s : TcpStream) (buf : List Nat) (raw : Nat → Nat)
    (v : Nat) :
    s.readResult buf (.memoryReturned none raw) = some (.ok (0, buf)) ∧
    s.peekResult buf (.memoryReturned none raw) = some (.ok (0, buf)) ∧
    s.readResult buf (.memoryReturned (some v) raw) =
      (if v ≤ 4096 then
        some (.ok (v, copyInto buf ((List.range v).map raw))) else none) ∧
    s.peekResult buf (.memoryReturned (some v) raw) =
      (if v ≤ 4096 then
        some (.ok (v, copyInto buf ((List.range v).map raw))) else none) ∧
    s.readResult buf (.scalar1 v) = some (.error .invalidInput) ∧
    s.readResult buf .otherResult = some (.error .invalidInput) ∧
    s.readResult buf .sendFailed = some (.error .invalidInput) ∧
    s.peekResult buf (.scalar1 v) = some (.error .invalidInput) ∧
    s.peekResult buf .otherResult = some (.error .invalidInput) ∧
    s.peekResult buf .sendFailed = some (.error .invalidInput) := by
  refine ⟨rfl, rfl, ?_, ?_, rfl, rfl, rfl, rfl, rfl, rfl⟩
  · rw [show s.readResult buf (.memoryReturned (some v) raw) =
        (match sliceTake raw v with
         | some src => some (.ok (v, copyInto buf src))
         | none => none) from rfl]
    unfold sliceTake
    by_cases h : v ≤ 4096
    · rw [if_pos h, if_pos h]
    · rw [if_neg h, if_neg h]
  · rw [show s.peekResult buf (.memoryReturned (some v) raw) =
        (match sliceTake raw v with
         | some src => some (.ok (v, copyInto buf src))
         | none => none) from rfl]
    unfold sliceTake
    by_cases h : v ≤ 4096
    · rw [if_pos h, if_pos h]
    · rw [if_neg h, if_neg h]

theorem copyInto_length (dst src : List Nat) :
    (copyInto dst src).length = dst.length := by
  induction dst generalizing src with
  | nil => cases src <;> rfl
  | cons d ds ih =>
    cases src with
    | nil => rfl
    | cons e es => simp [copyInto, ih]

theorem copyInto_take (dst src : List Nat) :
    (copyInto dst src).take (min src.length dst.length) =
      src.take (min src.length dst.length) := by
  induction dst generalizing src with
  | nil => simp
  | cons d ds ih =>
    cases src with
    | nil => simp
    | cons e es =>
      simp only [copyInto, List.length_cons, Nat.succ_min_succ, List.take_succ_cons]
      rw [ih]

theorem copyInto_drop (dst src : List Nat) :
    (copyInto dst src).drop (min src.length dst.length) =
      dst.drop (min src.length dst.length) := by
  induction dst generalizing src with
  | nil => cases src <;> rfl
  | cons d ds ih =>
    cases src with
    | nil => simp [copyInto]
    | cons e es =>
      simp only [copyInto, List.length_cons, Nat.succ_min_succ, List.drop_succ_cons]
      rw [ih]

/-- C9: when the service reports valid length L with L ≤ 4096, read and
peek return Ok(L) while writing only the first min(L, buffer length)
bytes into the caller buffer: the buffer keeps its length, only that
prefix is replaced, and when L exceeds the buffer length the reported
count L is strictly larger than the number of bytes written. -/
theorem read_reports_full_length (s : TcpStream) (buf : List Nat)
    (raw : Nat → Nat) (L : Nat) (h : L ≤ 4096) :
    s.readResult buf (.memoryReturned (some L) raw) =
      some (.ok (L, copyInto buf ((List.range L).map raw))) ∧
    s.peekResult buf (.memoryReturned (some L) raw) =
      some (.ok (L, copyInto buf ((List.range L).map raw))) ∧
    (copyInto buf ((List.range L).map raw)).length = buf.length ∧
    (copyInto buf ((List.range L).map raw)).take (min L buf.length) =
      ((List.range L).map raw).take (min L buf.length) ∧
    (copyInto buf ((List.range L).map raw)).drop (min L buf.length) =
      buf.drop (min L buf.length) ∧
    (buf.length < L → min L buf.length < L) := by
  have hlen : ((List.range L).map raw).length = L := by simp
  refine ⟨?_, ?_, copyInto_length buf _, ?_, ?_, ?_⟩
  · simp [TcpStream.readResult, sliceTake, h]
  · simp [TcpStream.peekResult, sliceTake, h]
  · have := copyInto_take buf ((List.range L).map raw)
    rwa [hlen] at this
  · have := copyInto_drop buf ((List.range L).map raw)
    rwa [hlen] at this
  · intro hb
    omega

/-- Witness for C9: valid length 3 against a 2-byte caller buffer. -/
theorem read_reports_full_length_w :
    (3 : Nat) ≤ 4096 ∧ min 3 ([5, 6] : List Nat).length < 3 :=
  ⟨by norm_num,
   (read_reports_full_length stream0 [5, 6] (fun i => i + 10) 3
      (by norm_num)).2.2.2.2.2 (by norm_num)⟩

/-! ## Accept decoding and error mapping -/

/-- C3: an accept reply with status 0, handle 12 LE at [1:3), version 4
at [3], octets 10.0.0.5 at [4:8) and port 54321 LE at [20:22) yields a
stream whose cached peer address is 10.0.0.5:54321, read back by
peer_addr with no message sent. -/
theorem accept_peer_addr_cached (l : TcpListener) (rr : Nat → Nat)
    (valid : Option Nat)
    (h0 : rr 0 = 0) (h1 : rr 1 = 12) (h2 : rr 2 = 0) (h3 : rr 3 = 4)
    (h4 : rr 4 = 10) (h5 : rr 5 = 0) (h6 : rr 6 = 0) (h7 : rr 7 = 5)
    (h20 : rr 20 = 49) (h21 : rr 21 = 212) :
    l.accept (.memoryReturned valid rr) =
      .ok (TcpStream.from_listener 12 l.localAddr.port 54321
             (.v4 10 0 0 5 54321),
           .v4 10 0 0 5 54321) ∧
    (TcpStream.from_listener 12 l.localAddr.port 54321
       (.v4 10 0 0 5 54321)).peerAddr = .ok (.v4 10 0 0 5 54321) ∧
    (TcpStream.from_listener 12 l.localAddr.port 54321
       (.v4 10 0 0 5 54321)).peerAddrMessages = [] := by
  refine ⟨?_, rfl, rfl⟩
  simp only [TcpListener.accept, h0, h1, h2, h3, h4, h5, h6, h7, h20, h21]
  norm_num

/-- Witness for C3 against the concrete reply page and listener 7. -/
theorem accept_peer_addr_cached_w :
    listener7.accept (.memoryReturned (some 4096) acceptReplyPage) =
      .ok (TcpStream.from_listener 12 listener7.localAddr.port 54321
             (.v4 10 0 0 5 54321),
           .v4 10 0 0 5 54321) ∧
    (TcpStream.from_listener 12 listener7.localAddr.port 54321
       (.v4 10 0 0 5 54321)).peerAddr = .ok (.v4 10 0 0 5 54321) :=
  ⟨(accept_peer_addr_cached listener7 acceptReplyPage (some 4096)
      rfl rfl rfl rfl rfl rfl rfl rfl rfl rfl).1,
   (accept_peer_addr_cached listener7 acceptReplyPage (some 4096)
      rfl rfl rfl rfl rfl rfl rfl rfl rfl rfl).2.1⟩

/-- C6 counterexample: a failing accept reply carrying the socket-in-use
error code is mapped to the generic-other kind by the accept error table,
not to resource-busy as the claim requires of every failing bind-or-accept
reply. -/
theorem accept_socket_in_use_not_busy :
    listener7.accept (.memoryReturned (some 4096) inUseReplyPage) =
      .error .other ∧
    inUseReplyPage 1 = NetError.code .socketInUse ∧
    ErrorKind.other ≠ ErrorKind.resourceBusy := by
  refine ⟨rfl, rfl, by decide⟩

/-- C6 (amended): every failing bind or accept reply maps its error code
byte through that operation's own total table: bind sends socket-in-use
to resource-busy, invalid to invalid-input, library-error to other, and
every other code (timed-out and would-block included) to other; accept
sends timed-out to timed-out, would-block to would-block, library-error
to other, and every other code (socket-in-use and invalid included) to
other; no code is unhandled. -/
theorem error_code_mapping_per_op (addr : SocketAddress) (l : TcpListener)
    (raw : Nat → Nat) (valid : Option Nat) (code : Nat)
    (hfail : raw 0 ≠ 0)
    (hb1 : code ≠ NetError.code .socketInUse)
    (hb2 : code ≠ NetError.code .invalid)
    (hb3 : code ≠ NetError.code .libraryError)
    (ha1 : code ≠ NetError.code .timedOut)
    (ha2 : code ≠ NetError.code .wouldBlock) :
    TcpListener.bindDecode addr (.memoryReturned valid raw) =
      .error (bindErrorKind (raw 1)) ∧
    l.accept (.memoryReturned valid raw) = .error (acceptErrorKind (raw 1)) ∧
    bindErrorKind (NetError.code .socketInUse) = .resourceBusy ∧
    bindErrorKind (NetError.code .invalid) = .invalidInput ∧
    bindErrorKind (NetError.code .libraryError) = .other ∧
    bindErrorKind (NetError.code .timedOut) = .other ∧
    bindErrorKind (NetError.code .wouldBlock) = .other ∧
    acceptErrorKind (NetError.code .timedOut) = .timedOut ∧
    acceptErrorKind (NetError.code .wouldBlock) = .wouldBlock ∧
    acceptErrorKind (NetError.code .libraryError) = .other ∧
    acceptErrorKind (NetError.code .socketInUse) = .other ∧
    acceptErrorKind (NetError.code .invalid) = .other ∧
    bindErrorKind code = .other ∧
    acceptErrorKind code = .other := by
  refine ⟨?_, ?_, by decide, by decide, by decide, by decide, by decide,
    by decide, by decide, by decide, by decide, by decide, ?_, ?_⟩
  · simp only [TcpListener.bindDecode]
    rw [if_pos (Or.inl hfail)]
  · simp only [TcpListener.accept]
    rw [if_pos hfail]
  · simp [bindErrorKind, hb1, hb2, hb3]
  · simp [acceptErrorKind, ha1, ha2, hb3]

/-- Witness for the amended C6 at the unrecognized code 77. -/
theorem error_code_mapping_per_op_w :
    inUseReplyPage 0 ≠ 0 ∧
    bindErrorKind 77 = .other ∧
    acceptErrorKind 77 = .other :=
  ⟨by decide,
   (error_code_mapping_per_op (.v4 0 0 0 0 8080) listener7 inUseReplyPage
      (some 4096) 77 (by decide) (by decide) (by decide) (by decide)
      (by decide) (by decide)).2.2.2.2.2.2.2.2.2.2.2.2.1,
   (error_code_mapping_per_op (.v4 0 0 0 0 8080) listener7 inUseReplyPage
      (some 4096) 77 (by decide) (by decide) (by decide) (by decide)
      (by decide) (by decide)).2.2.2.2.2.2.2.2.2.2.2.2.2⟩

end XousNet
